import Mathlib

/-!
Shallow embedding of `nctotdb/writers.py` (classes `TDBWriter` and
`ZarrWriter`) and proofs about their behaviour.

Python conventions modelled here:
* fallible statements return `Except PyError _`; an uncaught Python
  exception is an `Except.error`;
* `dict[key]` access is `dictGet` (raises `KeyError` when absent);
* `list.index(x)` is `pyIndex` (raises `ValueError` when absent);
* `x in none_value` raises `TypeError` (membership test against `None`);
* machine integers are unbounded Python ints, modelled as `Int`;
  `np.iinfo(np.int64).max` is the literal `2 ^ 63 - 1`;
* the TileDB storage backend is modelled as an association list from
  array URIs to array states recording the schema, the writes performed
  (as the slice tuples passed to `A[indices] = data`) and the metadata.
-/

namespace TileDBNetCDF

/-- The Python exception kinds that the embedded code can raise. -/
inductive PyError where
  | assertionError
  | typeError
  | keyError
  | valueError
  | attributeError
  | indexError
  | tileDBError
deriving DecidableEq, Repr

/-- A NetCDF variable as exposed by the data model's `_ncds_vars` dict:
its `name`, `dimensions` tuple, `shape`, `dtype` and NetCDF attributes
(as `ncattrs` key/value pairs). -/
structure NcVar where
  name : String
  dimensions : List String
  shape : List Nat
  dtype : String
  attrs : List (String × String)
deriving DecidableEq, Repr

/-- The `NCDataModel` collaborator interface consumed by the writers:
only the attributes that `writers.py` actually reads. -/
structure DataModel where
  netcdf_filename : String
  _ncds_vars : String → Option NcVar
  get_chunks : String → Nat
  unlimited_dim_coords : List String
  domains : List (List String)
  domain_varname_mapping : List String → List String
  varname_domain_mapping : String → List String
  data_var_names : List String

/-- Python `dict[key]`: `KeyError` when the key is absent. -/
def dictGet {α : Type} (d : String → Option α) (k : String) : Except PyError α :=
  match d k with
  | some v => Except.ok v
  | none => Except.error PyError.keyError

/-- Python `list.index(x)`: position of the first occurrence,
`ValueError` when absent. -/
def pyIndex {α : Type} [BEq α] : List α → α → Except PyError Nat
  | [], _ => Except.error PyError.valueError
  | a :: rest, x =>
      if a == x then Except.ok 0
      else (pyIndex rest x).map (· + 1)

/-- Python `assert cond`: `AssertionError` when the condition fails. -/
def pyAssert (p : Prop) [Decidable p] : Except PyError Unit :=
  if p then Except.ok () else Except.error PyError.assertionError

/-- Python `list[i]`: `IndexError` when out of range. -/
def pyGet {α : Type} (l : List α) (i : Nat) : Except PyError α :=
  match l.get? i with
  | some v => Except.ok v
  | none => Except.error PyError.indexError

/-- Split a character list at every occurrence of `c`, accumulating
the current piece in reverse. -/
def splitCharAux (c : Char) : List Char → List Char → List (List Char)
  | [], acc => [acc.reverse]
  | x :: rest, acc =>
      if x = c then acc.reverse :: splitCharAux c rest []
      else splitCharAux c rest (x :: acc)

/-- Split a string at every occurrence of the character `c`. -/
def splitChar (c : Char) (s : String) : List String :=
  (splitCharAux c s.data []).map String.mk

/-- Join strings with the single-character separator `c`. -/
def joinChar (c : Char) (l : List String) : String :=
  String.mk (((l.map String.data).intersperse [c]).join)

/-- `os.path.join` for two components (relative second component joins
with a single separator; an absolute second component replaces). -/
def pathJoin (a b : String) : String :=
  if b.data.head? = some '/' then b
  else if a = "" then b
  else if a.data.getLast? = some '/' then a ++ b
  else a ++ "/" ++ b

/-- `os.path.basename`: the part after the last path separator. -/
def basename (s : String) : String :=
  (splitChar '/' s).getLastD s

/-- `os.path.splitext(s)[0]`: the path without its final extension
(the extension dot must sit inside the last path component and must
not be its leading character). -/
def splitextRoot (s : String) : String :=
  let parts := splitChar '/' s
  let base := parts.getLastD s
  let pieces := splitChar '.' base
  if pieces.length ≤ 1 then s
  else
    let root := joinChar '.' pieces.dropLast
    if root = "" then s
    else joinChar '/' (parts.dropLast ++ [root])

/-- A translated TileDB dimension, as built by `tiledb.Dim(name=...,
domain=(lower, upper), tile=..., dtype=...)`. -/
structure TdbDim where
  name : String
  lower : Int
  upper : Int
  tile : Nat
  dtype : String
deriving DecidableEq, Repr

/-- `np.iinfo(np.int64).max`. -/
def int64_max : Int := 2 ^ 63 - 1

/-- The `TDBWriter` object state after `__init__`. -/
structure TDBWriter where
  data_model : DataModel
  tiledb_filepath : String
  unlimited_dims : Option (List String)
  _tiledb_array_name : Option String
  array_name : String

/-- `TDBWriter.__init__` (writers.py lines 16-27): stores the arguments
and derives `array_name` from the NetCDF filename when no explicit
array name is given. -/
def TDBWriter.init (data_model : DataModel) (tiledb_filepath : String)
    (tiledb_array_name : Option String)
    (unlimited_dims : Option (List String)) : TDBWriter :=
  { data_model := data_model
    tiledb_filepath := tiledb_filepath
    unlimited_dims := unlimited_dims
    _tiledb_array_name := tiledb_array_name
    array_name :=
      match tiledb_array_name with
      | none => basename (splitextRoot data_model.netcdf_filename)
      | some n => n }

/-- `TDBWriter._public_domain_name` (lines 29-31): the label
`domain_<i>` where `i` is the position of `domain` in the data model's
`domains` list (`list.index` raises `ValueError` when absent). -/
def TDBWriter._public_domain_name (w : TDBWriter) (domain : List String) :
    Except PyError String := do
  let domain_index ← pyIndex w.data_model.domains domain
  pure ("domain_" ++ toString domain_index)

/-- `dim_coord_len, = dim_coord.shape` (line 49): single-element tuple
unpacking, `ValueError` unless the shape has exactly one entry. -/
def unpack1 (shape : List Nat) : Except PyError Nat :=
  match shape with
  | [n] => Except.ok n
  | _ => Except.error PyError.valueError

/-- Lines 55-62 of `_create_tdb_dim`: choose `domain_max` based on
whether the dimension is unlimited.  The membership test
`dim_name in self.unlimited_dims` runs first and raises `TypeError`
when `unlimited_dims` is `None`; only otherwise is
`self.data_model.unlimited_dim_coords` consulted. -/
def TDBWriter.tdb_domain_max (w : TDBWriter) (dim_name : String)
    (dim_coord_len : Nat) : Except PyError Int :=
  match w.unlimited_dims with
  | none => Except.error PyError.typeError
  | some uds =>
      if dim_name ∈ uds then
        Except.ok (int64_max - dim_coord_len)
      else if dim_name ∈ w.data_model.unlimited_dim_coords then
        Except.ok (int64_max - dim_coord_len)
      else
        Except.ok (dim_coord_len : Int)

/-- `TDBWriter._create_tdb_dim` (lines 44-67): translate one source
dimension into a TileDB dimension.  Note the order of effects: the
`_ncds_vars` dict lookup and the 1-element shape unpacking happen
before the `unlimited_dims` membership test. -/
def TDBWriter._create_tdb_dim (w : TDBWriter) (dim_name : String) :
    Except PyError TdbDim := do
  let dim_coord ← dictGet w.data_model._ncds_vars dim_name
  let chunks := w.data_model.get_chunks dim_name
  let dim_coord_len ← unpack1 dim_coord.shape
  let dim_dtype := "int64"
  let domain_max ← w.tdb_domain_max dim_name dim_coord_len
  pure { name := dim_name
         lower := 0
         upper := domain_max
         tile := chunks
         dtype := dim_dtype }

/-- Sequencing an ok result. -/
theorem exceptBind_ok {α β : Type} (a : α) (f : α → Except PyError β) :
    (Except.ok a >>= f) = f a := rfl

/-- Sequencing an error short-circuits. -/
theorem exceptBind_err {α β : Type} (e : PyError) (f : α → Except PyError β) :
    ((Except.error e : Except PyError α) >>= f) = Except.error e := rfl

/-- A Python `slice(start, stop)` as used for array writes. -/
structure Slice where
  start : Int
  stop : Int
deriving DecidableEq, Repr

/-- The `start_index` argument of `populate_array` / `_array_indices`:
either a single Python int or a list of per-dimension offsets. -/
inductive StartIndex where
  | int : Int → StartIndex
  | list : List Int → StartIndex
deriving DecidableEq, Repr

/-- `TDBWriter._array_indices` (lines 97-106): one slice per zipped
(shape entry, start index) pair, `slice(start_ind, dim + start_ind)`;
an `int` start index is first broadcast to every dimension. -/
def TDBWriter._array_indices (data_var : NcVar) (start_index : StartIndex) :
    List Slice :=
  let shape := data_var.shape
  let start_index : List Int :=
    match start_index with
    | StartIndex.int n => List.replicate shape.length n
    | StartIndex.list l => l
  (List.zip shape start_index).map
    (fun p => { start := p.2, stop := (p.1 : Int) + p.2 })

/-- The recorded state of one TileDB array: its schema (dimensions and
value attribute), the writes performed against it (most recent first,
each the tuple of slices passed to `A[indices] = data` together with
the name of the variable whose payload was written), and its metadata
key/value store. -/
structure ArrState where
  dims : List TdbDim
  attr : String × String
  writes : List (List Slice × String)
  meta : List (String × String)
deriving DecidableEq, Repr

/-- The TileDB storage backend: array URI → array state. -/
abbrev Store : Type := List (String × ArrState)

/-- Look an array up by URI. -/
def storeGet (s : Store) (uri : String) : Option ArrState :=
  match s.find? (fun p => p.1 == uri) with
  | some p => some p.2
  | none => none

/-- Replace the state of an existing array. -/
def storeSet : Store → String → ArrState → Store
  | [], _, _ => []
  | p :: rest, uri, a =>
      if p.1 == uri then (uri, a) :: rest else p :: storeSet rest uri a

/-- `tiledb.Array.create(uri, schema)`: an error when an array already
exists at the URI (re-creating an array is a TileDB error). -/
def arrayCreate (s : Store) (uri : String) (dims : List TdbDim)
    (attr : String × String) : Except PyError Store :=
  match storeGet s uri with
  | some _ => Except.error PyError.tileDBError
  | none => Except.ok ((uri, { dims := dims, attr := attr, writes := [], meta := [] }) :: s)

/-- `tiledb.open(uri, 'w')`: an error when no array exists at the URI. -/
def arrayOpen (s : Store) (uri : String) : Except PyError ArrState :=
  match storeGet s uri with
  | some a => Except.ok a
  | none => Except.error PyError.tileDBError

/-- The extent of the data written to an array along axis `i`: the
largest slice stop over all writes (0 when nothing was written), i.e.
the length of the array's occupied region along that axis. -/
def ArrState.currentExtent (a : ArrState) (i : Nat) : Int :=
  a.writes.foldr
    (fun ws acc => max (((ws.1.get? i).map Slice.stop).getD 0) acc) 0

/-- `TDBWriter.populate_array` (lines 108-127): open the array named
after the data variable inside `group_dirname`, write the payload at
the indices from `_array_indices`, and copy the NetCDF attributes into
the array metadata when `write_meta` is set.  Note line 115: the
`var_name` parameter is immediately shadowed by `data_var.name`. -/
def TDBWriter.populate_array (w : TDBWriter) (s : Store) (data_var : NcVar)
    (group_dirname : String) (start_index : StartIndex)
    (write_meta : Bool) : Except PyError Store := do
  let var_name := data_var.name
  let array_filename := pathJoin group_dirname var_name
  let A ← arrayOpen s array_filename
  let write_indices := TDBWriter._array_indices data_var start_index
  let A := { A with writes := (write_indices, data_var.name) :: A.writes }
  let A := if write_meta then { A with meta := A.meta ++ data_var.attrs } else A
  pure (storeSet s array_filename A)

/-- `TDBWriter.create_domain_arrays` (lines 78-95): for each variable
of the domain, build the translated dimensions of its own dimension
tuple, a single value attribute carrying the variable's native dtype,
and create an empty array at `group_dirname/var_name`. -/
def TDBWriter.create_domain_arrays (w : TDBWriter) (s : Store)
    (domain_vars : List String) (group_dirname : String) :
    Except PyError Store :=
  domain_vars.foldlM
    (fun st var_name => do
      let data_var ← dictGet w.data_model._ncds_vars var_name
      let data_var_dims := data_var.dimensions
      let array_dims ← data_var_dims.mapM w._create_tdb_dim
      let attr := (var_name, data_var.dtype)
      let array_filename := pathJoin group_dirname var_name
      arrayCreate st array_filename array_dims attr)
    s

/-- `TDBWriter.populate_domain_arrays` (lines 129-133): populate each
domain variable's array with the full payload at the default offset. -/
def TDBWriter.populate_domain_arrays (w : TDBWriter) (s : Store)
    (domain_vars : List String) (group_dirname : String) :
    Except PyError Store :=
  domain_vars.foldlM
    (fun st var_name => do
      let data_var ← dictGet w.data_model._ncds_vars var_name
      w.populate_array st data_var group_dirname (StartIndex.int 0) true)
    s

/-- `TDBWriter.create_domains` (lines 135-156): for every domain of
the data model, derive the group directory
`tiledb_filepath/array_name/domain_<i>`, create one array per domain
variable and populate it.  (The filesystem directory and TileDB group
creation of lines 149-150 touch no array state.) -/
def TDBWriter.create_domains (w : TDBWriter) (s : Store) :
    Except PyError Store :=
  w.data_model.domains.foldlM
    (fun st domain => do
      let domain_vars := w.data_model.domain_varname_mapping domain
      let domain_name ← w._public_domain_name domain
      let group_dirname :=
        pathJoin (pathJoin w.tiledb_filepath w.array_name) domain_name
      let st ← w.create_domain_arrays st domain_vars group_dirname
      w.populate_domain_arrays st domain_vars group_dirname)
    s

/-- `TDBWriter.append` (lines 158-202): assert the preconditions, then
resolve the variable's domain, compute the offset vector from the
*writer's own* data model's variable shape along the append dimension,
and populate at that offset with `write_meta = False`. -/
def TDBWriter.append (w : TDBWriter) (s : Store) (other_data_model : DataModel)
    (var_name : String) (append_dim : String) : Except PyError Store := do
  let _ ← pyAssert (var_name ∈ w.data_model.data_var_names)
  let _ ← pyAssert (var_name ∈ other_data_model.data_var_names)
  let self_data_var ← dictGet w.data_model._ncds_vars var_name
  let other_data_var ← dictGet other_data_model._ncds_vars var_name
  let _ ← pyAssert (append_dim ∈ self_data_var.dimensions)
  let _ ← pyAssert (append_dim ∈ other_data_var.dimensions)
  let _ ← pyAssert (self_data_var.dimensions = other_data_var.dimensions)
  let domain := w.data_model.varname_domain_mapping var_name
  let domain_name ← w._public_domain_name domain
  let domain_path :=
    pathJoin (pathJoin w.tiledb_filepath w.array_name) domain_name
  let append_dim_index ← pyIndex self_data_var.dimensions append_dim
  let append_dim_offset ← pyGet self_data_var.shape append_dim_index
  let offsets :=
    (List.replicate self_data_var.shape.length (0 : Int)).set
      append_dim_index (append_dim_offset : Int)
  w.populate_array s other_data_var domain_path
    (StartIndex.list offsets) false

/-- The array URI at which `create_domains` creates the array of
variable `var_name` belonging to `domain`: the composition of lines
146-147 (`tiledb_filepath/array_name/domain_<i>`) with line 92
(`group_dirname/var_name`). -/
def TDBWriter.create_array_uri (w : TDBWriter) (domain : List String)
    (var_name : String) : Except PyError String := do
  let domain_name ← w._public_domain_name domain
  pure (pathJoin
    (pathJoin (pathJoin w.tiledb_filepath w.array_name) domain_name)
    var_name)

/-- The array URI at which `append` writes variable `var_name`: the
composition of lines 186-188 (domain resolved through
`varname_domain_mapping`, then `tiledb_filepath/array_name/domain_<i>`)
with lines 115-116 of `populate_array`
(`group_dirname/data_var.name`, the name of the appended variable). -/
def TDBWriter.append_array_uri (w : TDBWriter) (other : DataModel)
    (var_name : String) : Except PyError String := do
  let domain := w.data_model.varname_domain_mapping var_name
  let domain_name ← w._public_domain_name domain
  let other_data_var ← dictGet other._ncds_vars var_name
  pure (pathJoin
    (pathJoin (pathJoin w.tiledb_filepath w.array_name) domain_name)
    other_data_var.name)

/-! ### Concrete sample data models used by witnesses and counterexamples -/

/-- A concrete data model: variable `temp` over dimensions
`(time, lat)`, with 1-D coordinate variables `time` (length 10) and
`lat` (length 3). -/
def dmEx : DataModel :=
  { netcdf_filename := "path/to/sample.nc"
    _ncds_vars := fun n =>
      if n = "time" then some ⟨"time", ["time"], [10], "int32", []⟩
      else if n = "lat" then some ⟨"lat", ["lat"], [3], "float64", []⟩
      else if n = "temp" then
        some ⟨"temp", ["time", "lat"], [10, 3], "float64", [("units", "K")]⟩
      else none
    get_chunks := fun _ => 5
    unlimited_dim_coords := []
    domains := [["time", "lat"]]
    domain_varname_mapping := fun _ => ["temp"]
    varname_domain_mapping := fun _ => ["time", "lat"]
    data_var_names := ["temp"] }

/-- A writer over `dmEx` with `time` declared unlimited. -/
def wEx : TDBWriter := TDBWriter.init dmEx "out" none (some ["time"])

/-! ### C2: upper bound of a bounded translated dimension -/

/-- C2 (counterexample): for the bounded dimension `lat` of length 3,
`_create_tdb_dim` produces upper bound 3, not 3 − 1 as the claim
states. -/
theorem c2_counterexample :
    (wEx._create_tdb_dim "lat").map TdbDim.upper = Except.ok 3 ∧
      (3 : Int) ≠ 3 - 1 := by
  constructor
  · rfl
  · decide

/-- C2 (amended): for every bounded source dimension of length N (one
neither in the writer's `unlimited_dims` nor in the data model's
`unlimited_dim_coords`), the translated dimension has upper bound N
(together with lower bound 0 its inclusive index span is N + 1, one
more than the source length). -/
theorem c2_bounded_dim_upper (w : TDBWriter) (uds : List String)
    (dim_name : String) (v : NcVar) (n : Nat)
    (hu : w.unlimited_dims = some uds)
    (hv : w.data_model._ncds_vars dim_name = some v)
    (hs : v.shape = [n])
    (h1 : dim_name ∉ uds)
    (h2 : dim_name ∉ w.data_model.unlimited_dim_coords) :
    w._create_tdb_dim dim_name =
      Except.ok { name := dim_name, lower := 0, upper := (n : Int),
                  tile := w.data_model.get_chunks dim_name,
                  dtype := "int64" } := by
  simp [TDBWriter._create_tdb_dim, dictGet, hv, exceptBind_ok, unpack1, hs,
    TDBWriter.tdb_domain_max, hu, h1, h2]

/-- C2 amended witness: the bounded dimension `lat` (length 3) of the
sample writer gets upper bound 3. -/
theorem c2_bounded_dim_upper_witness :
    wEx._create_tdb_dim "lat" =
      Except.ok { name := "lat", lower := 0, upper := (3 : Int),
                  tile := wEx.data_model.get_chunks "lat",
                  dtype := "int64" } :=
  c2_bounded_dim_upper wEx ["time"] "lat" ⟨"lat", ["lat"], [3], "float64", []⟩ 3
    rfl rfl rfl (by decide) (by decide)

/-! ### C3: upper bound of an unbounded translated dimension -/

/-- C3: for every source dimension of length N that is unbounded —
i.e. its name is in the writer's `unlimited_dims` or in the data
model's `unlimited_dim_coords` — the translated dimension has upper
bound `int64_max − N`, leaving headroom of at least N below the
representable ceiling. -/
theorem c3_unbounded_dim_upper (w : TDBWriter) (uds : List String)
    (dim_name : String) (v : NcVar) (n : Nat)
    (hu : w.unlimited_dims = some uds)
    (hv : w.data_model._ncds_vars dim_name = some v)
    (hs : v.shape = [n])
    (h1 : dim_name ∈ uds ∨ dim_name ∈ w.data_model.unlimited_dim_coords) :
    w._create_tdb_dim dim_name =
      Except.ok { name := dim_name, lower := 0, upper := int64_max - n,
                  tile := w.data_model.get_chunks dim_name,
                  dtype := "int64" } ∧
      (n : Int) ≤ int64_max - (int64_max - n) := by
  refine ⟨?_, by omega⟩
  by_cases h2 : dim_name ∈ uds
  · simp [TDBWriter._create_tdb_dim, dictGet, hv, exceptBind_ok, unpack1, hs,
      TDBWriter.tdb_domain_max, hu, h2]
  · have h3 : dim_name ∈ w.data_model.unlimited_dim_coords := h1.resolve_left h2
    simp [TDBWriter._create_tdb_dim, dictGet, hv, exceptBind_ok, unpack1, hs,
      TDBWriter.tdb_domain_max, hu, h2, h3]

/-- C3 witness: the unlimited dimension `time` (length 10) of the
sample writer gets upper bound `int64_max − 10`. -/
theorem c3_unbounded_dim_upper_witness :
    (wEx._create_tdb_dim "time" =
      Except.ok { name := "time", lower := 0, upper := int64_max - 10,
                  tile := wEx.data_model.get_chunks "time",
                  dtype := "int64" } ∧
      (10 : Int) ≤ int64_max - (int64_max - 10)) :=
  c3_unbounded_dim_upper wEx ["time"] "time"
    ⟨"time", ["time"], [10], "int32", []⟩ 10 rfl rfl rfl (Or.inl (by decide))

/-! ### C7: every translated dimension has lower bound 0, dtype int64 -/

/-- C7: every dimension `_create_tdb_dim` ever produces has lower
bound 0 and the fixed 64-bit signed integer dtype, regardless of the
source dimension's native dtype. -/
theorem c7_dim_lower_and_dtype (w : TDBWriter) (dim_name : String)
    (d : TdbDim) (h : w._create_tdb_dim dim_name = Except.ok d) :
    d.lower = 0 ∧ d.dtype = "int64" := by
  unfold TDBWriter._create_tdb_dim at h
  cases hv : dictGet w.data_model._ncds_vars dim_name with
  | error e => rw [hv, exceptBind_err] at h; cases h
  | ok v =>
    rw [hv, exceptBind_ok] at h
    cases hl : unpack1 v.shape with
    | error e => rw [hl, exceptBind_err] at h; cases h
    | ok len =>
      rw [hl, exceptBind_ok] at h
      cases hm : w.tdb_domain_max dim_name len with
      | error e => rw [hm, exceptBind_err] at h; cases h
      | ok m =>
        rw [hm, exceptBind_ok] at h
        cases h
        exact ⟨rfl, rfl⟩

/-- C7 witness: the translated `time` dimension of the sample writer
has lower bound 0 and dtype `int64`. -/
theorem c7_dim_lower_and_dtype_witness :
    ({ name := "time", lower := 0, upper := int64_max - 10, tile := 5,
       dtype := "int64" } : TdbDim).lower = 0 ∧
    ({ name := "time", lower := 0, upper := int64_max - 10, tile := 5,
       dtype := "int64" } : TdbDim).dtype = "int64" :=
  c7_dim_lower_and_dtype wEx "time" _ rfl

/-! ### C6: append reuses the array path derived at creation -/

/-- C6: for every variable, the array URI used by `append` equals the
URI used at creation by `create_domains`: both are
`tiledb_filepath/array_name/domain_<i>/var_name` with `i` recomputed
as the position of the variable's domain in the data model's `domains`
iteration order (never cached), provided the data model maps the
variable to its domain consistently and the appended variable carries
the variable's name. -/
theorem c6_create_append_same_uri (w : TDBWriter) (other : DataModel)
    (domain : List String) (var_name : String) (ov : NcVar) (i : Nat)
    (hvd : w.data_model.varname_domain_mapping var_name = domain)
    (hi : pyIndex w.data_model.domains domain = Except.ok i)
    (hov : other._ncds_vars var_name = some ov)
    (hname : ov.name = var_name) :
    w.create_array_uri domain var_name = w.append_array_uri other var_name ∧
      w.create_array_uri domain var_name =
        Except.ok (pathJoin
          (pathJoin (pathJoin w.tiledb_filepath w.array_name)
            ("domain_" ++ toString i)) var_name) := by
  constructor <;>
    simp [TDBWriter.create_array_uri, TDBWriter.append_array_uri,
      TDBWriter._public_domain_name, hvd, hi, dictGet, hov, hname,
      exceptBind_ok]

/-- C6 witness: for the sample writer, both creation and append
resolve `temp` to `out/sample/domain_0/temp`. -/
theorem c6_create_append_same_uri_witness :
    (wEx.create_array_uri ["time", "lat"] "temp" =
        wEx.append_array_uri dmEx "temp" ∧
      wEx.create_array_uri ["time", "lat"] "temp" =
        Except.ok (pathJoin
          (pathJoin (pathJoin wEx.tiledb_filepath wEx.array_name)
            ("domain_" ++ toString 0)) "temp")) :=
  c6_create_append_same_uri wEx dmEx ["time", "lat"] "temp"
    ⟨"temp", ["time", "lat"], [10, 3], "float64", [("units", "K")]⟩ 0
    rfl rfl rfl rfl

/-! ### C9: `unlimited_dims=None` poisons dimension translation -/

/-- C9: when the writer was constructed with the default
`unlimited_dims=None`, translating any dimension of the data model
(one whose coordinate variable exists and is 1-D) raises `TypeError`
from the membership test against `None`; consequently `create_domains`
on the sample data model fails with `TypeError` before creating
anything. -/
theorem c9_none_unlimited_dims_type_error (w : TDBWriter) (dim_name : String)
    (v : NcVar) (n : Nat)
    (hnone : w.unlimited_dims = none)
    (hv : w.data_model._ncds_vars dim_name = some v)
    (hs : v.shape = [n]) :
    w._create_tdb_dim dim_name = Except.error PyError.typeError ∧
      (TDBWriter.init dmEx "out" none none).create_domains [] =
        Except.error PyError.typeError := by
  constructor
  · simp [TDBWriter._create_tdb_dim, dictGet, hv, exceptBind_ok, unpack1, hs,
      TDBWriter.tdb_domain_max, hnone]
  · rfl

/-- C9 witness: the sample writer built with `unlimited_dims=None`
raises `TypeError` when translating `time`. -/
theorem c9_none_unlimited_dims_type_error_witness :
    ((TDBWriter.init dmEx "out" none none)._create_tdb_dim "time" =
        Except.error PyError.typeError ∧
      (TDBWriter.init dmEx "out" none none).create_domains [] =
        Except.error PyError.typeError) :=
  c9_none_unlimited_dims_type_error (TDBWriter.init dmEx "out" none none)
    "time" ⟨"time", ["time"], [10], "int32", []⟩ 10 rfl rfl rfl

/-! ### C5: `_array_indices` slices -/

/-- C5: for a variable with k-dimensional shape and an offset vector
of one integer per dimension, `_array_indices` yields exactly one
slice per dimension, the i-th being `[offset_i, offset_i + extent_i)`;
a scalar integer offset is broadcast to every dimension before the
slices are formed. -/
theorem c5_array_indices (data_var : NcVar) (offs : List Int)
    (hlen : offs.length = data_var.shape.length) :
    (TDBWriter._array_indices data_var (StartIndex.list offs)).length =
        data_var.shape.length ∧
      (∀ i d o, data_var.shape.get? i = some d → offs.get? i = some o →
        (TDBWriter._array_indices data_var (StartIndex.list offs)).get? i =
          some { start := o, stop := (d : Int) + o }) ∧
      (∀ z : Int, TDBWriter._array_indices data_var (StartIndex.int z) =
        TDBWriter._array_indices data_var
          (StartIndex.list (List.replicate data_var.shape.length z))) := by
  refine ⟨?_, ?_, fun z => rfl⟩
  · simp [TDBWriter._array_indices, hlen]
  · intro i d o hd ho
    simp only [TDBWriter._array_indices, List.get?_map]
    have hz : (List.zip data_var.shape offs).get? i = some (d, o) :=
      (List.get?_zip_eq_some _ _ _ _).mpr ⟨hd, ho⟩
    rw [hz]
    rfl

/-- C5 witness: shape (10, 3) with offsets (4, 0) yields the slices
[4, 14) and [0, 3), and scalar 0 broadcasts to (0, 0). -/
theorem c5_array_indices_witness :
    ((TDBWriter._array_indices ⟨"temp", ["time", "lat"], [10, 3], "float64", []⟩
        (StartIndex.list [4, 0])).length = 2 ∧
      (TDBWriter._array_indices ⟨"temp", ["time", "lat"], [10, 3], "float64", []⟩
        (StartIndex.list [4, 0])).get? 0 = some { start := 4, stop := 14 }) := by
  have h := c5_array_indices ⟨"temp", ["time", "lat"], [10, 3], "float64", []⟩
    [4, 0] rfl
  refine ⟨h.1, ?_⟩
  rw [h.2.1 0 10 4 rfl rfl]
  norm_num

/-! ### C4: append precondition enforcement -/

/-- C4: `TDBWriter.append` fails with an `AssertionError` — before any
array is opened or written, and for every backend state `s` — whenever
the variable name is missing from either data model's
`data_var_names` (with no assumption at all on `_ncds_vars`, since the
name asserts of lines 175-176 run before the lookups of lines
179-180), or the append dimension is missing from either variable's
dimension tuple, or the two dimension tuples differ. -/
theorem c4_append_preconditions (w : TDBWriter) (s : Store)
    (other : DataModel) (var_name append_dim : String) :
    ((var_name ∉ w.data_model.data_var_names ∨
        var_name ∉ other.data_var_names) →
      w.append s other var_name append_dim =
        Except.error PyError.assertionError) ∧
      (∀ sv ov : NcVar, w.data_model._ncds_vars var_name = some sv →
        other._ncds_vars var_name = some ov →
        (append_dim ∉ sv.dimensions ∨ append_dim ∉ ov.dimensions ∨
          sv.dimensions ≠ ov.dimensions) →
        w.append s other var_name append_dim =
          Except.error PyError.assertionError) := by
  constructor
  · intro hfail
    by_cases a1 : var_name ∈ w.data_model.data_var_names
    · have a2 : var_name ∉ other.data_var_names := by tauto
      simp [TDBWriter.append, pyAssert, a1, a2, exceptBind_ok,
        exceptBind_err]
    · simp [TDBWriter.append, pyAssert, a1, exceptBind_err]
  · intro sv ov hsv hov hfail
    by_cases a1 : var_name ∈ w.data_model.data_var_names
    · by_cases a2 : var_name ∈ other.data_var_names
      · by_cases a3 : append_dim ∈ sv.dimensions
        · by_cases a4 : append_dim ∈ ov.dimensions
          · by_cases a5 : sv.dimensions = ov.dimensions
            · tauto
            · simp [TDBWriter.append, pyAssert, a1, a2, a3, a4, a5,
                dictGet, hsv, hov, exceptBind_ok, exceptBind_err]
          · simp [TDBWriter.append, pyAssert, a1, a2, a3, a4,
              dictGet, hsv, hov, exceptBind_ok, exceptBind_err]
        · simp [TDBWriter.append, pyAssert, a1, a2, a3,
            dictGet, hsv, hov, exceptBind_ok, exceptBind_err]
      · simp [TDBWriter.append, pyAssert, a1, a2,
          dictGet, hsv, exceptBind_ok, exceptBind_err]
    · simp [TDBWriter.append, pyAssert, a1, exceptBind_err]

/-- A data model like `dmEx` whose `data_var_names` does not contain
`temp` (used to exercise the absent-variable precondition). -/
def dmNoTemp : DataModel := { dmEx with data_var_names := [] }

/-- C4 witness: appending `temp` from a data model that does not list
it fails with an `AssertionError` (no `_ncds_vars` assumption), and so
does appending along the nonexistent dimension `height`, both on the
empty backend state. -/
theorem c4_append_preconditions_witness :
    wEx.append [] dmNoTemp "temp" "time" =
        Except.error PyError.assertionError ∧
      wEx.append [] dmEx "temp" "height" =
        Except.error PyError.assertionError :=
  ⟨(c4_append_preconditions wEx [] dmNoTemp "temp" "time").1
      (Or.inr (by decide)),
    (c4_append_preconditions wEx [] dmEx "temp" "height").2
      ⟨"temp", ["time", "lat"], [10, 3], "float64", [("units", "K")]⟩
      ⟨"temp", ["time", "lat"], [10, 3], "float64", [("units", "K")]⟩
      rfl rfl (Or.inl (by decide))⟩

/-! ### C1: the append offset comes from the writer's own data model -/

/-- `list.index` only succeeds on members. -/
theorem pyIndex_ok_mem {α : Type} [BEq α] [LawfulBEq α] {l : List α} {x : α}
    {i : Nat} (h : pyIndex l x = Except.ok i) : x ∈ l := by
  induction l generalizing i with
  | nil => cases h
  | cons a rest ih =>
    by_cases hax : a == x
    · have : a = x := eq_of_beq hax
      subst this
      exact List.mem_cons_self a rest
    · unfold pyIndex at h
      rw [if_neg hax] at h
      cases hrec : pyIndex rest x with
      | error e => rw [hrec] at h; cases h
      | ok j => exact List.mem_cons_of_mem a (ih hrec)

/-- The offset vector built at lines 197-198: zero in every slot
except the append slot. -/
theorem replicate_set_get? (k i : Nat) (x : Int) (h : i < k) :
    ((List.replicate k (0 : Int)).set i x).get? i = some x := by
  rw [List.get?_set_eq_of_lt]
  simpa using h

/-- C1 (amended): `TDBWriter.append` computes the offset as the length
of the variable *in the writer's own data model* along the append
dimension (its length when that data model was read), placed at the
append dimension's slot in an otherwise all-zero offset vector, and
delegates to `populate_array` at that offset without metadata; the
resulting write therefore starts at index `n` along the append
dimension, where `n` is the writer's model length — which equals the
target array's current extent for the first append but not for later
appends on the same writer. -/
theorem c1_append_offset (w : TDBWriter) (s : Store) (other : DataModel)
    (var_name append_dim domain_name : String) (sv ov : NcVar)
    (i n m : Nat)
    (h1 : var_name ∈ w.data_model.data_var_names)
    (h2 : var_name ∈ other.data_var_names)
    (hsv : w.data_model._ncds_vars var_name = some sv)
    (hov : other._ncds_vars var_name = some ov)
    (h5 : sv.dimensions = ov.dimensions)
    (hi : pyIndex sv.dimensions append_dim = Except.ok i)
    (hn : sv.shape.get? i = some n)
    (hm : ov.shape.get? i = some m)
    (hd : w._public_domain_name (w.data_model.varname_domain_mapping var_name)
      = Except.ok domain_name) :
    w.append s other var_name append_dim =
        w.populate_array s ov
          (pathJoin (pathJoin w.tiledb_filepath w.array_name) domain_name)
          (StartIndex.list
            ((List.replicate sv.shape.length (0 : Int)).set i (n : Int)))
          false ∧
      ((TDBWriter._array_indices ov
          (StartIndex.list
            ((List.replicate sv.shape.length (0 : Int)).set i (n : Int)))).get?
          i).map Slice.start = some (n : Int) := by
  have h3 : append_dim ∈ sv.dimensions := pyIndex_ok_mem hi
  have h4 : append_dim ∈ ov.dimensions := h5 ▸ h3
  have hilen : i < sv.shape.length := by
    have := List.get?_eq_some.mp hn
    exact this.choose
  have hoff : ((List.replicate sv.shape.length (0 : Int)).set i (n : Int)).get? i
      = some (n : Int) := replicate_set_get? _ _ _ hilen
  constructor
  · simp only [TDBWriter.append, pyAssert, if_pos h1, if_pos h2, if_pos h3,
      if_pos h4, if_pos h5, dictGet, hsv, hov, hd, hi, hn, pyGet,
      exceptBind_ok]
  · simp only [TDBWriter._array_indices, List.get?_map]
    have hz : (List.zip ov.shape
        ((List.replicate sv.shape.length (0 : Int)).set i (n : Int))).get? i =
        some (m, (n : Int)) :=
      (List.get?_zip_eq_some _ _ _ _).mpr ⟨hm, hoff⟩
    rw [hz]
    rfl

/-- The base data model for the two-append scenario: variable `temp`
over the single unlimited dimension `time`, both of length 2. -/
def dmC1 : DataModel :=
  { netcdf_filename := "base.nc"
    _ncds_vars := fun n =>
      if n = "time" then some ⟨"time", ["time"], [2], "int32", []⟩
      else if n = "temp" then some ⟨"temp", ["time"], [2], "float64", []⟩
      else none
    get_chunks := fun _ => 1
    unlimited_dim_coords := ["time"]
    domains := [["time"]]
    domain_varname_mapping := fun _ => ["temp"]
    varname_domain_mapping := fun _ => ["time"]
    data_var_names := ["temp"] }

/-- A first batch of new data: `temp` of length 1 along `time`. -/
def otherC1 : DataModel :=
  { dmC1 with
    netcdf_filename := "new1.nc"
    _ncds_vars := fun n =>
      if n = "time" then some ⟨"time", ["time"], [1], "int32", []⟩
      else if n = "temp" then some ⟨"temp", ["time"], [1], "float64", []⟩
      else none }

/-- A second batch of new data: again `temp` of length 1. -/
def otherC1b : DataModel :=
  { otherC1 with netcdf_filename := "new2.nc" }

/-- The writer of the two-append scenario. -/
def wC1 : TDBWriter := TDBWriter.init dmC1 "out" none (some [])

/-- The URI of the `temp` array in the two-append scenario. -/
def c1Path : String := "out/base/domain_0/temp"

/-- The translated `time` dimension of the scenario. -/
def c1TimeDim : TdbDim :=
  { name := "time", lower := 0, upper := int64_max - 2, tile := 1,
    dtype := "int64" }

/-- The `temp` array right after `create_domains`: one write covering
`[0, 2)`. -/
def c1ArrCreated : ArrState :=
  { dims := [c1TimeDim], attr := ("temp", "float64"),
    writes := [([{ start := 0, stop := 2 }], "temp")], meta := [] }

/-- The `temp` array after the first append: a second write covering
`[2, 3)`. -/
def c1ArrAfterFirst : ArrState :=
  { dims := [c1TimeDim], attr := ("temp", "float64"),
    writes := [([{ start := 2, stop := 3 }], "temp"),
               ([{ start := 0, stop := 2 }], "temp")], meta := [] }

/-- The `temp` array after the second append: the new write again
covers `[2, 3)`, not `[3, 4)`. -/
def c1ArrAfterSecond : ArrState :=
  { dims := [c1TimeDim], attr := ("temp", "float64"),
    writes := [([{ start := 2, stop := 3 }], "temp"),
               ([{ start := 2, stop := 3 }], "temp"),
               ([{ start := 0, stop := 2 }], "temp")], meta := [] }

/-- C1 (counterexample): after creating the target (length 2) and
appending a length-1 batch, the target's current extent along `time`
is 3; yet a second append on the same writer writes its data starting
at index 2 — the length recorded in the writer's own data model — and
not at the target's current extent 3.  This refutes the claim that
every append (in particular every append after the first) places new
data at the target's current extent. -/
theorem c1_counterexample :
    (wC1.create_domains [] >>= fun s => wC1.append s otherC1 "temp" "time") =
        Except.ok [(c1Path, c1ArrAfterFirst)] ∧
      c1ArrAfterFirst.currentExtent 0 = 3 ∧
      wC1.append [(c1Path, c1ArrAfterFirst)] otherC1b "temp" "time" =
        Except.ok [(c1Path, c1ArrAfterSecond)] ∧
      c1ArrAfterSecond.writes.head? =
        some ([{ start := 2, stop := 3 }], "temp") ∧
      (2 : Int) ≠ 3 := by
  exact ⟨rfl, by decide, rfl, rfl, by decide⟩

/-- C1 amended witness: the first append of the scenario delegates to
`populate_array` with offset vector `[2]` — zero everywhere except the
append slot, which holds the writer's model length 2 — and its write
starts at index 2. -/
theorem c1_append_offset_witness :
    (wC1.append [(c1Path, c1ArrCreated)] otherC1 "temp" "time" =
        wC1.populate_array [(c1Path, c1ArrCreated)]
          ⟨"temp", ["time"], [1], "float64", []⟩
          (pathJoin (pathJoin wC1.tiledb_filepath wC1.array_name) "domain_0")
          (StartIndex.list
            ((List.replicate (1 : Nat) (0 : Int)).set 0 ((2 : Nat) : Int)))
          false ∧
      ((TDBWriter._array_indices ⟨"temp", ["time"], [1], "float64", []⟩
          (StartIndex.list
            ((List.replicate (1 : Nat) (0 : Int)).set 0
              ((2 : Nat) : Int)))).get? 0).map Slice.start =
        some ((2 : Nat) : Int)) :=
  c1_append_offset wC1 [(c1Path, c1ArrCreated)] otherC1 "temp" "time"
    "domain_0" ⟨"temp", ["time"], [2], "float64", []⟩
    ⟨"temp", ["time"], [1], "float64", []⟩ 0 2 1
    (by decide) (by decide) rfl rfl rfl rfl rfl rfl rfl

/-! ### The `ZarrWriter` class -/

/-- One backend call performed by `ZarrWriter.append`: the native
`self_array.append(other_var[...], axis=axis)` of line 320, recording
the zarr array appended to, the payload variable, and the axis. -/
structure ZarrAppendOp where
  target : String
  payload : NcVar
  axis : Nat
deriving DecidableEq, Repr

/-- The `ZarrWriter` object state after a successful `__init__`.
`group` is `None` until `create_zarr` runs; afterwards it holds the
names of the datasets of the zarr group. -/
structure ZarrWriter where
  data_model : DataModel
  filepath : String
  _group_name : Option String
  group_name : String
  array_filename : String
  group : Option (List String)

/-- `ZarrWriter.__init__` (lines 214-227).  With `group_name=None` the
group name is derived from the NetCDF filename; with any other value,
line 222 executes `self.group_name = self.group_name`, reading the
`group_name` object member before it was ever assigned, which raises
`AttributeError` and aborts the constructor.  `cwd` stands for
`os.path.abspath('.')` in the `array_filename` f-string of line 223. -/
def ZarrWriter.init (data_model : DataModel) (filepath : String)
    (group_name : Option String) (cwd : String) :
    Except PyError ZarrWriter := do
  let gname ←
    match group_name with
    | none => Except.ok (basename (splitextRoot data_model.netcdf_filename))
    | some _ => (Except.error PyError.attributeError : Except PyError String)
  Except.ok
    { data_model := data_model
      filepath := filepath
      _group_name := group_name
      group_name := gname
      array_filename := pathJoin (pathJoin cwd filepath) gname ++ ".zarr"
      group := none }

/-- `getattr(self.group, name)`: `AttributeError` when the group is
`None` or has no dataset of that name; returns the name of the found
array. -/
def groupGetattr (g : Option (List String)) (name : String) :
    Except PyError String :=
  match g with
  | none => Except.error PyError.attributeError
  | some arrs =>
      if name ∈ arrs then Except.ok name
      else Except.error PyError.attributeError

/-- The body of the `for group_name in group_names` loop of
`ZarrWriter.append` (lines 316-320): fetch the target array from the
group, read the new variable, and run the native append with
`axis = 0`. -/
def ZarrWriter.append_one (zw : ZarrWriter) (other_data_model : DataModel)
    (gn : String) : Except PyError ZarrAppendOp := do
  let self_array ← groupGetattr zw.group gn
  let other_var ← dictGet other_data_model._ncds_vars gn
  let axis := 0
  pure { target := self_array, payload := other_var, axis := axis }

/-- `ZarrWriter.append` (lines 292-320): with a `group_name`, assert it
is one of the writer's variable names and append just that array; with
none, assert the two models' `data_var_names` are equal and append
every array named by the new data model.  The result lists the
performed native append calls in order. -/
def ZarrWriter.append (zw : ZarrWriter) (other_data_model : DataModel)
    (group_name : Option String) : Except PyError (List ZarrAppendOp) := do
  let _ ←
    match group_name with
    | some gn => pyAssert (gn ∈ zw.data_model.data_var_names)
    | none =>
        pyAssert
          (zw.data_model.data_var_names = other_data_model.data_var_names)
  let group_names :=
    match group_name with
    | none => other_data_model.data_var_names
    | some gn => [gn]
  group_names.mapM (zw.append_one other_data_model)

/-- Inversion for one loop iteration: a successful native append call
targets exactly the requested array, carries the new data model's
payload for that name, and uses axis 0. -/
theorem append_one_ok {zw : ZarrWriter} {other : DataModel} {gn : String}
    {op : ZarrAppendOp} (h : zw.append_one other gn = Except.ok op) :
    op.target = gn ∧ op.axis = 0 ∧ other._ncds_vars gn = some op.payload := by
  unfold ZarrWriter.append_one groupGetattr dictGet at h
  cases hzw : zw.group with
  | none => simp [hzw, exceptBind_err] at h
  | some arrs =>
    by_cases hmem : gn ∈ arrs
    · cases hd : other._ncds_vars gn with
      | none => simp [hzw, hmem, hd, exceptBind_ok, exceptBind_err] at h
      | some v =>
        simp only [hzw, hmem, if_true, hd, exceptBind_ok] at h
        cases h
        exact ⟨rfl, rfl, rfl⟩
    · simp [hzw, hmem, exceptBind_err] at h

/-- Inversion for the whole loop: a successful `mapM` of
`append_one` targets exactly the requested names in order, always
with axis 0 and the new model's payloads. -/
theorem append_one_mapM {zw : ZarrWriter} {other : DataModel} :
    ∀ (l : List String) (ops : List ZarrAppendOp),
      l.mapM (zw.append_one other) = Except.ok ops →
      ops.map ZarrAppendOp.target = l ∧
        ∀ op ∈ ops, op.axis = 0 ∧
          other._ncds_vars op.target = some op.payload := by
  intro l
  induction l with
  | nil =>
    intro ops h
    rw [List.mapM_nil] at h
    cases h
    exact ⟨rfl, by intro op hop; cases hop⟩
  | cons a rest ih =>
    intro ops h
    rw [List.mapM_cons] at h
    cases ha : zw.append_one other a with
    | error e => rw [ha, exceptBind_err] at h; cases h
    | ok op =>
      rw [ha, exceptBind_ok] at h
      cases hrest : rest.mapM (zw.append_one other) with
      | error e => rw [hrest, exceptBind_err] at h; cases h
      | ok ops' =>
        rw [hrest, exceptBind_ok] at h
        cases h
        obtain ⟨ht, ho, hv⟩ := append_one_ok ha
        obtain ⟨ht', hrest'⟩ := ih ops' hrest
        refine ⟨by simp [ht, ht'], ?_⟩
        intro o ho'
        rcases List.mem_cons.mp ho' with h1 | h1
        · subst h1
          exact ⟨ho, ht ▸ hv⟩
        · exact hrest' o h1

/-! ### C8: `ZarrWriter.append` without a group name -/

/-- C8: `ZarrWriter.append` with no `group_name` fails with an
`AssertionError` whenever the two models' variable name sets differ,
and on success performs exactly one native append per variable named
by the new data model, each along the fixed axis 0 with that
variable's payload. -/
theorem c8_zarr_append_axis0 (zw : ZarrWriter) (other : DataModel)
    (ops : List ZarrAppendOp) :
    ((¬ ∀ x, (x ∈ zw.data_model.data_var_names ↔ x ∈ other.data_var_names)) →
        zw.append other none = Except.error PyError.assertionError) ∧
      (zw.append other none = Except.ok ops →
        ops.map ZarrAppendOp.target = other.data_var_names ∧
          ∀ op ∈ ops, op.axis = 0 ∧
            other._ncds_vars op.target = some op.payload) := by
  constructor
  · intro h
    have hne : zw.data_model.data_var_names ≠ other.data_var_names := by
      intro he
      exact h (fun x => by rw [he])
    simp [ZarrWriter.append, pyAssert, hne, exceptBind_err]
  · intro h
    by_cases heq : zw.data_model.data_var_names = other.data_var_names
    · rw [ZarrWriter.append] at h
      simp only [pyAssert, if_pos heq, exceptBind_ok] at h
      exact append_one_mapM other.data_var_names ops h
    · rw [ZarrWriter.append] at h
      simp only [pyAssert, if_neg heq, exceptBind_err] at h
      cases h

/-- The zarr writer used by the C8 witness: `dmEx` materialized, with
the single dataset `temp` in the group. -/
def zwEx : ZarrWriter :=
  { data_model := dmEx
    filepath := "out"
    _group_name := none
    group_name := "sample"
    array_filename := "/cwd/out/sample.zarr"
    group := some ["temp"] }

/-- C8 witness: appending `dmEx` onto the sample zarr writer appends
exactly `temp` along axis 0 with `temp`'s payload. -/
theorem c8_zarr_append_axis0_witness :
    ([⟨"temp", ⟨"temp", ["time", "lat"], [10, 3], "float64",
          [("units", "K")]⟩, 0⟩] : List ZarrAppendOp).map
        ZarrAppendOp.target = dmEx.data_var_names ∧
      ∀ op ∈ ([⟨"temp", ⟨"temp", ["time", "lat"], [10, 3], "float64",
          [("units", "K")]⟩, 0⟩] : List ZarrAppendOp), op.axis = 0 ∧
        dmEx._ncds_vars op.target = some op.payload :=
  (c8_zarr_append_axis0 zwEx dmEx
    [⟨"temp", ⟨"temp", ["time", "lat"], [10, 3], "float64",
        [("units", "K")]⟩, 0⟩]).2 rfl

/-! ### C10: `ZarrWriter.__init__` with a non-None group name -/

/-- C10: constructing a `ZarrWriter` with any non-`None` `group_name`
raises `AttributeError` (line 222 assigns `self.group_name` from
itself before it is defined), for every data model, filepath and
working directory; the default `group_name=None` path succeeds and
yields the writer whose group name is derived from the NetCDF
filename. -/
theorem c10_zarr_init_attribute_error (data_model : DataModel)
    (filepath gn cwd : String) :
    ZarrWriter.init data_model filepath (some gn) cwd =
        Except.error PyError.attributeError ∧
      ZarrWriter.init data_model filepath none cwd =
        Except.ok
          { data_model := data_model
            filepath := filepath
            _group_name := none
            group_name := basename (splitextRoot data_model.netcdf_filename)
            array_filename :=
              pathJoin (pathJoin cwd filepath)
                (basename (splitextRoot data_model.netcdf_filename)) ++ ".zarr"
            group := none } := by
  exact ⟨rfl, rfl⟩

end TileDBNetCDF
